import Mathlib

/-!
Shallow embedding of the bloomguard geospatial core
(`src/backend/main.py`, `src/backend/services/drift.py`,
`src/backend/services/mission.py`) over the real numbers, together with
theorems settling the specification claims about it.

Python floats are modelled as real numbers; `math.radians`, `math.degrees`,
`math.atan2` and Python's banker's `round` are given explicit definitions
matching their mathematical semantics.
-/

open Real

noncomputable section

/-- Python `math.radians`: degrees to radians. -/
def radians (d : ℝ) : ℝ := d * π / 180

/-- Python `math.degrees`: radians to degrees. -/
def degrees (r : ℝ) : ℝ := r * 180 / π

/-- Python `math.atan2 y x`, the two-argument arctangent with the C convention
(`atan2 0 0 = 0`, range `(-π, π]`). -/
def atan2 (y x : ℝ) : ℝ :=
  if 0 < x then arctan (y / x)
  else if x < 0 ∧ 0 ≤ y then arctan (y / x) + π
  else if x < 0 ∧ y < 0 then arctan (y / x) - π
  else if x = 0 ∧ 0 < y then π / 2
  else if x = 0 ∧ y < 0 then -(π / 2)
  else 0

/-- Python's `round` to an integer (banker's rounding: ties go to the even
integer; elsewhere it agrees with round-half-up). -/
def roundHE (x : ℝ) : ℤ :=
  if Int.fract x = 1 / 2 then (if Even ⌊x⌋ then ⌊x⌋ else ⌊x⌋ + 1) else round x

/-- Python's `round(x, 2)`: round to two decimal places. -/
def round2 (x : ℝ) : ℝ := (roundHE (x * 100) : ℝ) / 100

/-- Wind data as returned by `_fetch_wind_data` in
`src/backend/services/drift.py`: a dict with keys `wind_speed` and
`wind_direction`; `none` models the `None` returned on any fetch/parse
failure. -/
structure WindData where
  wind_speed : ℝ
  wind_direction : ℝ

/-- Latitude clamping from `predict_drift` (drift.py line 90):
`max(-90, min(90, new_lat))`. -/
def clamp_lat (x : ℝ) : ℝ := max (-90) (min 90 x)

/-- Longitude normalization from `predict_drift` (drift.py lines 84-87):
subtract 360 if above 180, else add 360 if below -180. -/
def normalize_lon (x : ℝ) : ℝ :=
  if 180 < x then x - 360 else if x < -180 then x + 360 else x

/-- Function `predict_drift(lat, lon)` from `src/backend/services/drift.py`, with the
external wind lookup made an explicit `Option WindData` argument.  The early
`return [lat, lon]` exits of the Python code become nested conditionals. -/
def predict_drift (lat lon : ℝ) (wind : Option WindData) : List ℝ :=
  if -90 ≤ lat ∧ lat ≤ 90 then
    if -180 ≤ lon ∧ lon ≤ 180 then
      match wind with
      | none => [lat, lon]
      | some w =>
        if w.wind_speed ≤ 0 then [lat, lon]
        else
          let wind_direction_rad := radians (w.wind_direction + 180)
          let drift_factor : ℝ := 0.03 * 24
          let lat_displacement := w.wind_speed * drift_factor * Real.cos wind_direction_rad
          let lon_displacement :=
            w.wind_speed * drift_factor * Real.sin wind_direction_rad /
              max (Real.cos (radians lat)) 0.01
          [clamp_lat (lat + lat_displacement), normalize_lon (lon + lon_displacement)]
    else [lat, lon]
  else [lat, lon]

/-- Function `_circular_mean(directions)` from `src/backend/services/drift.py`. -/
def circular_mean (dirs : List ℝ) : ℝ :=
  if dirs = [] then 0
  else
    let rads := dirs.map radians
    let sin_sum := (rads.map Real.sin).sum
    let cos_sum := (rads.map Real.cos).sum
    let mean_rad := atan2 (sin_sum / rads.length) (cos_sum / rads.length)
    let mean_deg := degrees mean_rad
    if mean_deg < 0 then mean_deg + 360 else mean_deg

/-- The sample-reduction step of `_fetch_wind_data` (drift.py lines 149-157):
given the nonempty lists of valid speeds and directions, take the first value
of each, and when more than one speed is present, average the first 24 speeds
arithmetically and the first 24 directions circularly. -/
def reduce_wind (valid_speeds valid_dirs : List ℝ) : ℝ × ℝ :=
  let wind_speed := valid_speeds.headD 0
  let wind_direction := valid_dirs.headD 0
  if 1 < valid_speeds.length then
    ((valid_speeds.take 24).sum / (min valid_speeds.length 24 : ℕ),
      circular_mean (valid_dirs.take 24))
  else (wind_speed, wind_direction)

/-- Function `_calculate_risk_score(lat, lon)` from `src/backend/main.py`. -/
def calculate_risk_score (lat lon : ℝ) : ℝ :=
  let coastal_proximity := |lat|
  let mock_score := min 0.8 (0.3 + coastal_proximity / 90 * 0.5)
  round2 mock_score

/-- Function `_lat_lon_to_bbox(lat, lon, size_degrees)` from `src/backend/main.py`,
returning `[min_lon, min_lat, max_lon, max_lat]`. -/
def lat_lon_to_bbox (lat lon size_degrees : ℝ) : List ℝ :=
  let half_size := size_degrees / 2
  let min_lon := lon - half_size
  let max_lon := lon + half_size
  let lat_correction := max |Real.cos (radians lat)| 0.01
  let adjusted_lat_size := half_size / lat_correction
  let min_lat := max (-90) (lat - adjusted_lat_size)
  let max_lat := min 90 (lat + adjusted_lat_size)
  [min_lon, min_lat, max_lon, max_lat]

/-- Home-base latitude from `src/backend/services/mission.py`. -/
def PORT_STANLEY_LAT : ℝ := 42.66

/-- Home-base longitude from `src/backend/services/mission.py`. -/
def PORT_STANLEY_LON : ℝ := -81.22

/-- Bearing of the drift line in `generate_flight_path`
(mission.py lines 41-44). -/
def drift_bearing (algae_lat algae_lon drift_lat drift_lon : ℝ) : ℝ :=
  atan2 ((drift_lon - algae_lon) * Real.cos (radians algae_lat))
    (drift_lat - algae_lat)

/-- The `zig` waypoint of iteration `i` of the loop in `generate_flight_path`
(mission.py lines 59-72): the interpolated center at fraction `i/8` along the
drift vector, displaced by `+offset` along the perpendicular bearing. -/
def zig_point (algae_lat algae_lon drift_lat drift_lon : ℝ) (i : ℕ) : List ℝ :=
  let dlat := drift_lat - algae_lat
  let dlon := drift_lon - algae_lon
  let perp_bearing := drift_bearing algae_lat algae_lon drift_lat drift_lon + π / 2
  let lat_step := dlat / 8
  let lon_step := dlon / 8
  let width_degrees : ℝ := 1.5 / 111.0
  let center_lat := algae_lat + lat_step * i
  let center_lon := algae_lon + lon_step * i
  let perp_lat_offset := width_degrees * Real.cos perp_bearing
  let perp_lon_offset :=
    width_degrees * Real.sin perp_bearing / Real.cos (radians center_lat)
  [center_lat + perp_lat_offset, center_lon + perp_lon_offset]

/-- The `zag` waypoint of iteration `i` of the loop in `generate_flight_path`
(mission.py lines 74-77): same center, displaced by `-offset`. -/
def zag_point (algae_lat algae_lon drift_lat drift_lon : ℝ) (i : ℕ) : List ℝ :=
  let dlat := drift_lat - algae_lat
  let dlon := drift_lon - algae_lon
  let perp_bearing := drift_bearing algae_lat algae_lon drift_lat drift_lon + π / 2
  let lat_step := dlat / 8
  let lon_step := dlon / 8
  let width_degrees : ℝ := 1.5 / 111.0
  let center_lat := algae_lat + lat_step * i
  let center_lon := algae_lon + lon_step * i
  let perp_lat_offset := width_degrees * Real.cos perp_bearing
  let perp_lon_offset :=
    width_degrees * Real.sin perp_bearing / Real.cos (radians center_lat)
  [center_lat - perp_lat_offset, center_lon - perp_lon_offset]

/-- The `for i in range(1, steps + 1)` loop of `generate_flight_path`:
`zigzag_points a b c d n` is the list of waypoints appended by iterations
`1..n`, each iteration contributing its zig point then its zag point. -/
def zigzag_points (algae_lat algae_lon drift_lat drift_lon : ℝ) : ℕ → List (List ℝ)
  | 0 => []
  | n + 1 =>
    zigzag_points algae_lat algae_lon drift_lat drift_lon n ++
      [zig_point algae_lat algae_lon drift_lat drift_lon (n + 1),
        zag_point algae_lat algae_lon drift_lat drift_lon (n + 1)]

/-- Function `generate_flight_path` from `src/backend/services/mission.py` with its
hard-coded `steps = 8`: home base, bloom location, then the zigzag loop. -/
def generate_flight_path (algae_lat algae_lon drift_lat drift_lon : ℝ) :
    List (List ℝ) :=
  [[PORT_STANLEY_LAT, PORT_STANLEY_LON], [algae_lat, algae_lon]] ++
    zigzag_points algae_lat algae_lon drift_lat drift_lon 8

/-- Response model of `POST /api/analyze` from `src/backend/main.py`. -/
structure AnalyzeResponse where
  image_url : String
  risk_score : ℝ
  drift_vector : List ℝ
  ai_report : String
  flight_path : List (List ℝ)

/-- Function `analyze_location` from `src/backend/main.py`, with the two external
collaborators made explicit arguments: the wind lookup result consumed by
`predict_drift`, and the satellite image filename produced by
`fetch_satellite_image`.  `Except` errors carry the HTTP status code of the
raised `HTTPException`. -/
def analyze_location (lat lon : ℝ) (wind : Option WindData)
    (image_filename : String) : Except ℕ AnalyzeResponse :=
  if -90 ≤ lat ∧ lat ≤ 90 then
    if -180 ≤ lon ∧ lon ≤ 180 then
      Except.ok
        { image_url := "/assets/" ++ image_filename
          risk_score := calculate_risk_score lat lon
          drift_vector := predict_drift lat lon wind
          ai_report := ""
          flight_path := [] }
    else Except.error 400
  else Except.error 400

/-- The risk model asserted by the specification, transcribed from its words
for comparison with the source's `calculate_risk_score`:
`clamp(0.90 - wind_speed_kmh * 0.02, 0.10, 0.95)`. -/
def risk_spec_model (wind_speed_kmh : ℝ) : ℝ :=
  max 0.10 (min 0.95 (0.90 - wind_speed_kmh * 0.02))

/-- At a half-integer, round-half-up lands on the floor plus one. -/
lemma round_of_fract_half {x : ℝ} (h : Int.fract x = 1 / 2) : round x = ⌊x⌋ + 1 := by
  rw [round_eq]
  have hfr : x - (⌊x⌋ : ℝ) = 1 / 2 := by rw [Int.self_sub_floor, h]
  have hx : x + 1 / 2 = ((⌊x⌋ : ℝ)) + 1 := by linarith
  rw [hx, show ((⌊x⌋ : ℝ)) + 1 = ((⌊x⌋ + 1 : ℤ) : ℝ) by push_cast; ring,
    Int.floor_intCast]

/-- Banker's rounding never goes below the floor. -/
lemma floor_le_roundHE (x : ℝ) : ⌊x⌋ ≤ roundHE x := by
  unfold roundHE
  split_ifs with h1 h2
  · exact le_refl _
  · omega
  · rw [round_eq]
    exact Int.floor_mono (by linarith)

/-- Banker's rounding never exceeds round-half-up. -/
lemma roundHE_le_round (x : ℝ) : roundHE x ≤ round x := by
  unfold roundHE
  split_ifs with h1 h2
  · rw [round_of_fract_half h1]; omega
  · rw [round_of_fract_half h1]
  · exact le_refl _

/-- Banker's rounding is monotone. -/
lemma roundHE_mono {x y : ℝ} (h : x ≤ y) : roundHE x ≤ roundHE y := by
  rcases eq_or_lt_of_le h with rfl | hlt
  · exact le_refl _
  by_cases hy : Int.fract y = 1 / 2
  · have h1 : roundHE x ≤ round x := roundHE_le_round x
    have h2 : ⌊y⌋ ≤ roundHE y := floor_le_roundHE y
    have hyv : y - (⌊y⌋ : ℝ) = 1 / 2 := by rw [Int.self_sub_floor, hy]
    have h3 : round x ≤ ⌊y⌋ := by
      rw [round_eq]
      have h4 : ⌊x + 1 / 2⌋ < ⌊y⌋ + 1 := by
        have h5 : x + 1 / 2 < ((⌊y⌋ + 1 : ℤ) : ℝ) := by push_cast; linarith
        exact Int.floor_lt.mpr h5
      omega
    omega
  · have hyr : roundHE y = round y := by unfold roundHE; rw [if_neg hy]
    rw [hyr]
    calc roundHE x ≤ round x := roundHE_le_round x
      _ ≤ round y := by rw [round_eq, round_eq]; exact Int.floor_mono (by linarith)

/-- Evaluation of banker's rounding strictly below the half point. -/
lemma roundHE_eq_of_lt_half {x : ℝ} {n : ℤ} (h1 : (n : ℝ) ≤ x)
    (h2 : x < (n : ℝ) + 1 / 2) : roundHE x = n := by
  have hfl : ⌊x⌋ = n := Int.floor_eq_iff.mpr ⟨h1, by push_cast; linarith⟩
  have hfr : Int.fract x ≠ 1 / 2 := by
    have hh : Int.fract x = x - (n : ℝ) := by
      rw [← Int.self_sub_floor, hfl]
    rw [hh]
    intro hc
    linarith
  unfold roundHE
  rw [if_neg hfr, round_eq]
  exact Int.floor_eq_iff.mpr ⟨by push_cast; linarith, by push_cast; linarith⟩

/-- Evaluation of banker's rounding strictly above the half point. -/
lemma roundHE_eq_of_half_lt {x : ℝ} {n : ℤ} (h1 : (n : ℝ) + 1 / 2 < x)
    (h2 : x < (n : ℝ) + 1) : roundHE x = n + 1 := by
  have hfl : ⌊x⌋ = n := Int.floor_eq_iff.mpr ⟨by linarith, by push_cast; linarith⟩
  have hfr : Int.fract x ≠ 1 / 2 := by
    have hh : Int.fract x = x - (n : ℝ) := by
      rw [← Int.self_sub_floor, hfl]
    rw [hh]
    intro hc
    linarith
  unfold roundHE
  rw [if_neg hfr, round_eq]
  exact Int.floor_eq_iff.mpr ⟨by push_cast; linarith, by push_cast; linarith⟩

/-- Lower bound transported through two-decimal rounding. -/
lemma round2_ge {x : ℝ} {n : ℤ} (h : (n : ℝ) ≤ x * 100) :
    (n : ℝ) / 100 ≤ round2 x := by
  unfold round2
  have h1 : n ≤ roundHE (x * 100) :=
    le_trans (Int.le_floor.mpr h) (floor_le_roundHE _)
  have h2 : (n : ℝ) ≤ (roundHE (x * 100) : ℝ) := by exact_mod_cast h1
  linarith

/-- Upper bound transported through two-decimal rounding. -/
lemma round2_le {x : ℝ} {n : ℤ} (h : x * 100 + 1 / 2 < (n : ℝ) + 1) :
    round2 x ≤ (n : ℝ) / 100 := by
  unfold round2
  have h1 : roundHE (x * 100) ≤ round (x * 100) := roundHE_le_round _
  have h2 : round (x * 100) ≤ n := by
    rw [round_eq]
    have h3 : ⌊x * 100 + 1 / 2⌋ < n + 1 := by
      refine Int.floor_lt.mpr ?_
      push_cast
      linarith
    omega
  have h4 : ((roundHE (x * 100) : ℤ) : ℝ) ≤ (n : ℝ) := by
    exact_mod_cast le_trans h1 h2
  linarith

/-- The function `atan2` never exceeds `π`. -/
lemma atan2_le_pi (y x : ℝ) : atan2 y x ≤ π := by
  unfold atan2
  split_ifs with h1 h2 h3 h4 h5
  · linarith [arctan_lt_pi_div_two (y / x), pi_pos]
  · have hdiv : y / x ≤ 0 := by
      rcases h2 with ⟨hx, hy⟩
      exact div_nonpos_iff.mpr (Or.inl ⟨hy, hx.le⟩)
    have harc : arctan (y / x) ≤ 0 := by
      calc arctan (y / x) ≤ arctan 0 := arctan_strictMono.monotone hdiv
        _ = 0 := arctan_zero
    linarith
  · linarith [arctan_lt_pi_div_two (y / x), pi_pos]
  · linarith [pi_pos]
  · linarith [pi_pos]
  · linarith [pi_pos]

/-- The function `atan2` stays strictly above `-π`. -/
lemma neg_pi_lt_atan2 (y x : ℝ) : -π < atan2 y x := by
  unfold atan2
  split_ifs with h1 h2 h3 h4 h5
  · linarith [neg_pi_div_two_lt_arctan (y / x), pi_pos]
  · linarith [neg_pi_div_two_lt_arctan (y / x), pi_pos]
  · have hdiv : 0 < y / x := div_pos_of_neg_of_neg h3.2 h3.1
    have harc : 0 < arctan (y / x) := by
      calc (0 : ℝ) = arctan 0 := arctan_zero.symm
        _ < arctan (y / x) := arctan_strictMono hdiv
    linarith
  · linarith [pi_pos]
  · linarith [pi_pos]
  · linarith [pi_pos]

/-- Value `atan2 0 x = 0` for positive `x`. -/
lemma atan2_zero_of_pos {x : ℝ} (hx : 0 < x) : atan2 0 x = 0 := by
  unfold atan2
  rw [if_pos hx, zero_div, arctan_zero]

/-- The degenerate origin case of `atan2` returns `0`. -/
lemma atan2_zero_zero : atan2 0 0 = 0 := by
  unfold atan2
  norm_num

/-- Two-decimal rounding is monotone. -/
lemma round2_mono {x y : ℝ} (h : x ≤ y) : round2 x ≤ round2 y := by
  unfold round2
  have h1 := roundHE_mono (by linarith : x * 100 ≤ y * 100)
  have h2 : ((roundHE (x * 100)) : ℝ) ≤ ((roundHE (y * 100)) : ℝ) := by
    exact_mod_cast h1
  linarith

/-- Unfolding of `predict_drift` on the active branch: valid coordinates and
strictly positive wind speed. -/
lemma predict_drift_active (lat lon s d : ℝ) (h1 : -90 ≤ lat) (h2 : lat ≤ 90)
    (h3 : -180 ≤ lon) (h4 : lon ≤ 180) (h5 : 0 < s) :
    predict_drift lat lon (some ⟨s, d⟩) =
      [clamp_lat (lat + s * (0.03 * 24) * Real.cos (radians (d + 180))),
        normalize_lon (lon + s * (0.03 * 24) * Real.sin (radians (d + 180)) /
          max (Real.cos (radians lat)) 0.01)] := by
  unfold predict_drift
  rw [if_pos ⟨h1, h2⟩, if_pos ⟨h3, h4⟩]
  simp only
  rw [if_neg (not_le.mpr h5)]

/-- Evaluation of `predict_drift` on an unavailable wind lookup. -/
lemma predict_drift_none (lat lon : ℝ) : predict_drift lat lon none = [lat, lon] := by
  unfold predict_drift
  split_ifs <;> rfl

/-- Evaluation of `predict_drift` on nonpositive wind speed. -/
lemma predict_drift_nowind (lat lon s d : ℝ) (h : s ≤ 0) :
    predict_drift lat lon (some ⟨s, d⟩) = [lat, lon] := by
  unfold predict_drift
  split_ifs <;> first | rfl | simp only [if_pos h]

/-- The risk score of the source lies in `[0.3, 0.8]` for every input. -/
lemma risk_bounds (lat lon : ℝ) :
    0.3 ≤ calculate_risk_score lat lon ∧ calculate_risk_score lat lon ≤ 0.8 := by
  unfold calculate_risk_score
  have habs : (0 : ℝ) ≤ |lat| / 90 * 0.5 := by positivity
  have hm1 : (0.3 : ℝ) ≤ min 0.8 (0.3 + |lat| / 90 * 0.5) :=
    le_min (by norm_num) (by linarith)
  have hm2 : min 0.8 (0.3 + |lat| / 90 * 0.5) ≤ (0.8 : ℝ) := min_le_left _ _
  constructor
  · have h := @round2_ge (min 0.8 (0.3 + |lat| / 90 * 0.5)) 30 (by push_cast; linarith)
    push_cast at h
    linarith
  · have h := @round2_le (min 0.8 (0.3 + |lat| / 90 * 0.5)) 80 (by push_cast; linarith)
    push_cast at h
    linarith

/-- C5: for every point, a wind observation with speed at most zero, or an
unavailable wind lookup, leaves the drift prediction equal to the input
point; the function is total and never errors. -/
theorem C5_no_wind_returns_point_unchanged :
    (∀ lat lon : ℝ, predict_drift lat lon none = [lat, lon]) ∧
    (∀ lat lon s d : ℝ, s ≤ 0 → predict_drift lat lon (some ⟨s, d⟩) = [lat, lon]) :=
  ⟨predict_drift_none, fun lat lon s d h => predict_drift_nowind lat lon s d h⟩

/-- Witness for C5 at the point `(42, -81)` with calm wind. -/
theorem C5_witness :
    predict_drift 42 (-81) none = [42, -81] ∧
    predict_drift 42 (-81) (some ⟨0, 135⟩) = [42, -81] :=
  ⟨C5_no_wind_returns_point_unchanged.1 42 (-81),
    C5_no_wind_returns_point_unchanged.2 42 (-81) 0 135 (le_refl 0)⟩

/-- C9: for every coordinate accepted by the caller boundary, the risk score
lies within `[0.10, 0.95]`. -/
theorem C9_risk_score_in_unit_band (lat lon : ℝ) (h1 : -90 ≤ lat) (h2 : lat ≤ 90)
    (h3 : -180 ≤ lon) (h4 : lon ≤ 180) :
    0.10 ≤ calculate_risk_score lat lon ∧ calculate_risk_score lat lon ≤ 0.95 := by
  obtain ⟨hl, hr⟩ := risk_bounds lat lon
  constructor <;> linarith

/-- Witness for C9 at the coordinate `(45, 10)`. -/
theorem C9_witness :
    0.10 ≤ calculate_risk_score 45 10 ∧ calculate_risk_score 45 10 ≤ 0.95 :=
  C9_risk_score_in_unit_band 45 10 (by norm_num) (by norm_num) (by norm_num)
    (by norm_num)

/-- C1 counterexample: at the specification's own end-to-end scenario
(bloom at latitude `41.85`, wind speed `10`), the source's risk scorer
returns `0.53`, while the claimed wind-based formula
`clamp(0.90 - s * 0.02, 0.10, 0.95)` gives `0.70`; the scorer does not
implement the claimed model. -/
theorem C1_counterexample :
    calculate_risk_score 41.85 (-83.10) = 0.53 ∧ risk_spec_model 10 = 0.70 ∧
      (0.53 : ℝ) ≠ 0.70 := by
  refine ⟨?_, ?_, by norm_num⟩
  · show round2 (min 0.8 (0.3 + |(41.85 : ℝ)| / 90 * 0.5)) = 0.53
    rw [show |(41.85 : ℝ)| = 41.85 from abs_of_pos (by norm_num)]
    rw [show min (0.8 : ℝ) (0.3 + 41.85 / 90 * 0.5) = 0.5325 by
      rw [min_eq_right (by norm_num)]; norm_num]
    unfold round2
    rw [show (0.5325 : ℝ) * 100 = 53.25 by norm_num]
    rw [@roundHE_eq_of_lt_half 53.25 53 (by norm_num) (by norm_num)]
    norm_num
  · unfold risk_spec_model
    norm_num

/-- C1 amended: the source's risk scorer ignores wind entirely; it depends
only on the latitude, returning `round(min(0.8, 0.3 + (|lat| / 90) * 0.5), 2)`,
which lies in `[0.3, 0.8]` (hence inside `[0.10, 0.95]`), is monotonically
non-decreasing in `|lat|`, and attains `0.3` at the equator and `0.8` at the
poles. -/
theorem C1_amended_risk_is_latitude_based :
    (∀ lat lon lon2 : ℝ, calculate_risk_score lat lon = calculate_risk_score lat lon2) ∧
    (∀ lat lon : ℝ,
      calculate_risk_score lat lon = round2 (min 0.8 (0.3 + |lat| / 90 * 0.5))) ∧
    (∀ lat lon : ℝ,
      0.3 ≤ calculate_risk_score lat lon ∧ calculate_risk_score lat lon ≤ 0.8) ∧
    (∀ lat1 lat2 lon : ℝ, |lat1| ≤ |lat2| →
      calculate_risk_score lat1 lon ≤ calculate_risk_score lat2 lon) ∧
    calculate_risk_score 0 0 = 0.3 ∧ calculate_risk_score 90 0 = 0.8 := by
  refine ⟨fun lat lon lon2 => rfl, fun lat lon => rfl, risk_bounds, ?_, ?_, ?_⟩
  · intro lat1 lat2 lon h
    show round2 (min 0.8 (0.3 + |lat1| / 90 * 0.5)) ≤
      round2 (min 0.8 (0.3 + |lat2| / 90 * 0.5))
    exact round2_mono (min_le_min (le_refl _) (by linarith))
  · show round2 (min 0.8 (0.3 + |(0 : ℝ)| / 90 * 0.5)) = 0.3
    rw [abs_zero, show min (0.8 : ℝ) (0.3 + 0 / 90 * 0.5) = 0.3 by norm_num]
    unfold round2
    rw [show (0.3 : ℝ) * 100 = 30 by norm_num]
    rw [@roundHE_eq_of_lt_half 30 30 (by norm_num) (by norm_num)]
    norm_num
  · show round2 (min 0.8 (0.3 + |(90 : ℝ)| / 90 * 0.5)) = 0.8
    rw [show |(90 : ℝ)| = 90 from abs_of_pos (by norm_num)]
    rw [show min (0.8 : ℝ) (0.3 + 90 / 90 * 0.5) = 0.8 by norm_num]
    unfold round2
    rw [show (0.8 : ℝ) * 100 = 80 by norm_num]
    rw [@roundHE_eq_of_lt_half 80 80 (by norm_num) (by norm_num)]
    norm_num

/-- Witness for the amended C1: monotonicity applied between latitudes 10
and 20, together with the equator evaluation. -/
theorem C1_witness :
    calculate_risk_score 10 5 ≤ calculate_risk_score 20 5 ∧
      calculate_risk_score 0 0 = 0.3 :=
  ⟨C1_amended_risk_is_latitude_based.2.2.2.1 10 20 5 (by
      rw [show |(10 : ℝ)| = 10 from abs_of_pos (by norm_num),
        show |(20 : ℝ)| = 20 from abs_of_pos (by norm_num)]
      norm_num),
    C1_amended_risk_is_latitude_based.2.2.2.2.1⟩

/-- C8: for every valid center, the bounding box `[min_lon, min_lat, max_lon,
max_lat]` contains the center on both axes, has both latitude bounds clamped
into `[-90, 90]`, and satisfies `min ≤ max` on each axis. -/
theorem C8_bbox_invariants (lat lon : ℝ) (h1 : -90 ≤ lat) (h2 : lat ≤ 90)
    (h3 : -180 ≤ lon) (h4 : lon ≤ 180) :
    ((lat_lon_to_bbox lat lon 0.1).getD 1 0 ≤ lat ∧
      lat ≤ (lat_lon_to_bbox lat lon 0.1).getD 3 0) ∧
    ((lat_lon_to_bbox lat lon 0.1).getD 0 0 ≤ lon ∧
      lon ≤ (lat_lon_to_bbox lat lon 0.1).getD 2 0) ∧
    (-90 ≤ (lat_lon_to_bbox lat lon 0.1).getD 1 0 ∧
      (lat_lon_to_bbox lat lon 0.1).getD 1 0 ≤ 90) ∧
    (-90 ≤ (lat_lon_to_bbox lat lon 0.1).getD 3 0 ∧
      (lat_lon_to_bbox lat lon 0.1).getD 3 0 ≤ 90) ∧
    (lat_lon_to_bbox lat lon 0.1).getD 1 0 ≤ (lat_lon_to_bbox lat lon 0.1).getD 3 0 ∧
    (lat_lon_to_bbox lat lon 0.1).getD 0 0 ≤ (lat_lon_to_bbox lat lon 0.1).getD 2 0 := by
  have hbb : lat_lon_to_bbox lat lon 0.1 =
      [lon - 0.1 / 2, max (-90) (lat - 0.1 / 2 / max |Real.cos (radians lat)| 0.01),
        lon + 0.1 / 2, min 90 (lat + 0.1 / 2 / max |Real.cos (radians lat)| 0.01)] := rfl
  rw [hbb]
  simp only [List.getD_cons_zero, List.getD_cons_succ]
  have hApos : 0 < 0.1 / 2 / max |Real.cos (radians lat)| 0.01 :=
    div_pos (by norm_num) (lt_of_lt_of_le (by norm_num) (le_max_right _ _))
  set A := 0.1 / 2 / max |Real.cos (radians lat)| 0.01
  have hmin : max (-90 : ℝ) (lat - A) ≤ lat := max_le h1 (by linarith)
  have hmax : lat ≤ min (90 : ℝ) (lat + A) := le_min h2 (by linarith)
  refine ⟨⟨hmin, hmax⟩, ⟨by linarith, by linarith⟩, ⟨le_max_left _ _, by linarith⟩,
    ⟨?_, min_le_left _ _⟩, by linarith, by linarith⟩
  exact le_min (by norm_num) (by linarith)

/-- Witness for C8 at the center `(45, 10)`. -/
theorem C8_witness :
    ((lat_lon_to_bbox 45 10 0.1).getD 1 0 ≤ 45 ∧
      (45 : ℝ) ≤ (lat_lon_to_bbox 45 10 0.1).getD 3 0) ∧
    ((lat_lon_to_bbox 45 10 0.1).getD 0 0 ≤ 10 ∧
      (10 : ℝ) ≤ (lat_lon_to_bbox 45 10 0.1).getD 2 0) ∧
    (-90 ≤ (lat_lon_to_bbox 45 10 0.1).getD 1 0 ∧
      (lat_lon_to_bbox 45 10 0.1).getD 1 0 ≤ 90) ∧
    (-90 ≤ (lat_lon_to_bbox 45 10 0.1).getD 3 0 ∧
      (lat_lon_to_bbox 45 10 0.1).getD 3 0 ≤ 90) ∧
    (lat_lon_to_bbox 45 10 0.1).getD 1 0 ≤ (lat_lon_to_bbox 45 10 0.1).getD 3 0 ∧
    (lat_lon_to_bbox 45 10 0.1).getD 0 0 ≤ (lat_lon_to_bbox 45 10 0.1).getD 2 0 :=
  C8_bbox_invariants 45 10 (by norm_num) (by norm_num) (by norm_num) (by norm_num)

/-- C2 counterexample: at the point `(0, 0)` with wind speed `1` from bearing
`180`, the source moves latitude to `0.72` degrees, not by the claimed
`degrees = s * 0.03 * duration_hours / 111.0` (with `duration_hours = 1`)
times the cosine of the travel bearing, which would be `0.03 / 111 ≈ 0.00027`. -/
theorem C2_counterexample :
    predict_drift 0 0 (some ⟨1, 180⟩) = [0.72, 0] ∧
      (0.72 : ℝ) ≠ 0 + 1 * 0.03 * 1 / 111 * Real.cos (radians (180 - 180)) := by
  constructor
  · rw [predict_drift_active 0 0 1 180 (by norm_num) (by norm_num) (by norm_num)
      (by norm_num) (by norm_num)]
    rw [show radians (180 + 180 : ℝ) = 2 * π from by unfold radians; ring,
      Real.cos_two_pi, Real.sin_two_pi]
    norm_num [clamp_lat, normalize_lon, max_def, min_def]
  · rw [show (180 - 180 : ℝ) = 0 from by norm_num,
      show radians (0 : ℝ) = 0 from by unfold radians; ring, Real.cos_zero]
    norm_num

/-- C2 amended: for every valid point and wind observation with speed `s > 0`
and `from` bearing `d`, the drift moves the point by
`degrees = s * 0.03 * 24` (a hard-coded 24-hour horizon with no `/ 111.0`
degree conversion) in the travel direction `radians(d + 180)`, with
`dlat = degrees * cos` and `dlon = degrees * sin / max(cos(radians lat), 0.01)`,
followed by latitude clamping and single longitude wraparound. -/
theorem C2_amended_drift_model (lat lon s d : ℝ) (h1 : -90 ≤ lat) (h2 : lat ≤ 90)
    (h3 : -180 ≤ lon) (h4 : lon ≤ 180) (h5 : 0 < s) :
    predict_drift lat lon (some ⟨s, d⟩) =
      [clamp_lat (lat + s * (0.03 * 24) * Real.cos (radians (d + 180))),
        normalize_lon (lon + s * (0.03 * 24) * Real.sin (radians (d + 180)) /
          max (Real.cos (radians lat)) 0.01)] :=
  predict_drift_active lat lon s d h1 h2 h3 h4 h5

/-- Witness for the amended C2: wind of speed `2` from due south at
`(10, 20)` moves the point `1.44` degrees north. -/
theorem C2_witness : predict_drift 10 20 (some ⟨2, 180⟩) = [11.44, 20] := by
  rw [C2_amended_drift_model 10 20 2 180 (by norm_num) (by norm_num) (by norm_num)
    (by norm_num) (by norm_num)]
  rw [show radians (180 + 180 : ℝ) = 2 * π from by unfold radians; ring,
    Real.cos_two_pi, Real.sin_two_pi]
  norm_num [clamp_lat, normalize_lon, max_def, min_def]

/-- C7: the longitude produced by drift prediction is normalized by a single
conditional shift of 360 degrees: a raw longitude of `185` is reported as
`-175` and `-185` as `175`; longitudes already in `[-180, 180]` are unchanged;
any raw longitude in `[-540, 540]` lands in `[-180, 180]`; and two full
pipeline runs exhibit the two wraparounds. -/
theorem C7_longitude_normalization :
    normalize_lon 185 = -175 ∧ normalize_lon (-185) = 175 ∧
    (∀ x : ℝ, -180 ≤ x → x ≤ 180 → normalize_lon x = x) ∧
    (∀ x : ℝ, -540 ≤ x → x ≤ 540 →
      -180 ≤ normalize_lon x ∧ normalize_lon x ≤ 180) ∧
    predict_drift 0 179 (some ⟨25 / 3, 270⟩) = [0, -175] ∧
    predict_drift 0 (-179) (some ⟨25 / 3, 90⟩) = [0, 175] := by
  refine ⟨by norm_num [normalize_lon], by norm_num [normalize_lon], ?_, ?_, ?_, ?_⟩
  · intro x hx1 hx2
    unfold normalize_lon
    rw [if_neg (by linarith), if_neg (by linarith)]
  · intro x hx1 hx2
    unfold normalize_lon
    split_ifs with hs1 hs2 <;> constructor <;> linarith
  · rw [predict_drift_active 0 179 (25 / 3) 270 (by norm_num) (by norm_num)
      (by norm_num) (by norm_num) (by norm_num)]
    rw [show radians (270 + 180 : ℝ) = π / 2 + 2 * π from by unfold radians; ring,
      Real.cos_add_two_pi, Real.sin_add_two_pi, Real.cos_pi_div_two,
      Real.sin_pi_div_two, show radians (0 : ℝ) = 0 from by unfold radians; ring,
      Real.cos_zero]
    norm_num [clamp_lat, normalize_lon, max_def, min_def]
  · rw [predict_drift_active 0 (-179) (25 / 3) 90 (by norm_num) (by norm_num)
      (by norm_num) (by norm_num) (by norm_num)]
    rw [show radians (90 + 180 : ℝ) = π / 2 + π from by unfold radians; ring,
      Real.cos_add_pi, Real.sin_add_pi, Real.cos_pi_div_two, Real.sin_pi_div_two,
      show radians (0 : ℝ) = 0 from by unfold radians; ring, Real.cos_zero]
    norm_num [clamp_lat, normalize_lon, max_def, min_def]

/-- Witness for C7: the identity branch of the normalization and the bounded
branch applied at concrete raw longitudes. -/
theorem C7_witness :
    normalize_lon 150 = 150 ∧ -180 ≤ normalize_lon 200 ∧ normalize_lon 200 ≤ 180 :=
  ⟨C7_longitude_normalization.2.2.1 150 (by norm_num) (by norm_num),
    (C7_longitude_normalization.2.2.2.1 200 (by norm_num) (by norm_num)).1,
    (C7_longitude_normalization.2.2.2.1 200 (by norm_num) (by norm_num)).2⟩

/-- The circular mean of a nonempty direction list lies in `[0, 360)`. -/
lemma circular_mean_mem (dirs : List ℝ) (h : dirs ≠ []) :
    0 ≤ circular_mean dirs ∧ circular_mean dirs < 360 := by
  unfold circular_mean
  rw [if_neg h]
  simp only
  set a := ((dirs.map radians).map Real.sin).sum / ((dirs.map radians).length : ℝ)
  set b := ((dirs.map radians).map Real.cos).sum / ((dirs.map radians).length : ℝ)
  have h1 := atan2_le_pi a b
  have h2 := neg_pi_lt_atan2 a b
  have hpi := pi_pos
  have hub : degrees (atan2 a b) ≤ 180 := by
    unfold degrees
    rw [div_le_iff₀ hpi]
    nlinarith
  have hlb : -180 < degrees (atan2 a b) := by
    unfold degrees
    rw [lt_div_iff₀ hpi]
    nlinarith
  split_ifs with hneg
  · constructor <;> linarith
  · push_neg at hneg
    constructor <;> linarith

/-- The circular mean of the bearings `350` and `10` is exactly `0`. -/
lemma circular_mean_350_10 : circular_mean [350, 10] = 0 := by
  unfold circular_mean
  rw [if_neg (by simp)]
  simp only [List.map_cons, List.map_nil, List.sum_cons, List.sum_nil,
    List.length_cons, List.length_nil]
  rw [show radians 350 = -(radians 10) + 2 * π from by unfold radians; ring]
  rw [Real.sin_add_two_pi, Real.cos_add_two_pi, Real.sin_neg, Real.cos_neg]
  rw [show -Real.sin (radians 10) + (Real.sin (radians 10) + 0) = 0 from by ring]
  have hc : 0 < Real.cos (radians 10) := by
    apply Real.cos_pos_of_mem_Ioo
    constructor
    · unfold radians; nlinarith [pi_pos]
    · unfold radians; nlinarith [pi_pos]
  rw [zero_div, atan2_zero_of_pos (by positivity)]
  unfold degrees
  norm_num

/-- C6: when more than one forecast sample is available (and the API returns
at most 24 hourly samples), the provider reduces speed by the arithmetic
mean and direction by the circular mean
`atan2(mean(sin), mean(cos))` normalized into `[0, 360)`; in particular the
circular mean of `[350, 10]` is `0`, not `180`. -/
theorem C6_circular_mean_reduction :
    (∀ dirs : List ℝ, dirs ≠ [] →
      0 ≤ circular_mean dirs ∧ circular_mean dirs < 360) ∧
    circular_mean [350, 10] = 0 ∧ (0 : ℝ) ≠ 180 ∧
    (∀ ns ds : List ℝ, 1 < ns.length → ns.length ≤ 24 → ds.length ≤ 24 →
      reduce_wind ns ds = (ns.sum / (ns.length : ℝ), circular_mean ds)) := by
  refine ⟨circular_mean_mem, circular_mean_350_10, by norm_num, ?_⟩
  intro ns ds h1 h2 h3
  unfold reduce_wind
  rw [if_pos h1, List.take_of_length_le h2, List.take_of_length_le h3,
    Nat.min_eq_left h2]

/-- Witness for C6: two speed samples `4, 6` and the directions `350, 10`
reduce to speed `5` and direction `0`. -/
theorem C6_witness :
    reduce_wind [4, 6] [350, 10] = (5, 0) ∧ 0 ≤ circular_mean [350, 10] := by
  constructor
  · rw [C6_circular_mean_reduction.2.2.2 [4, 6] [350, 10] (by simp) (by simp)
      (by simp)]
    rw [C6_circular_mean_reduction.2.1]
    norm_num
  · exact (C6_circular_mean_reduction.1 [350, 10] (by simp)).1

/-- Expansion of `generate_flight_path` into its 18 literal waypoints. -/
lemma gfp_expand (a b c d : ℝ) :
    generate_flight_path a b c d =
      [[PORT_STANLEY_LAT, PORT_STANLEY_LON], [a, b],
        zig_point a b c d 1, zag_point a b c d 1,
        zig_point a b c d 2, zag_point a b c d 2,
        zig_point a b c d 3, zag_point a b c d 3,
        zig_point a b c d 4, zag_point a b c d 4,
        zig_point a b c d 5, zag_point a b c d 5,
        zig_point a b c d 6, zag_point a b c d 6,
        zig_point a b c d 7, zag_point a b c d 7,
        zig_point a b c d 8, zag_point a b c d 8] := rfl

/-- C3: for every bloom and drift point, the planner (with its hard-coded
home base and `steps = 8`) returns exactly `2 + 2 * 8 = 18` waypoints; the
first is the home base, the second the bloom location, and for each of the 8
interpolated centers the `+offset` zig point comes immediately before the
`-offset` zag point. -/
theorem C3_flight_path_structure (a b c d : ℝ) :
    (generate_flight_path a b c d).length = 18 ∧
    (generate_flight_path a b c d).getD 0 [] = [PORT_STANLEY_LAT, PORT_STANLEY_LON] ∧
    (generate_flight_path a b c d).getD 1 [] = [a, b] ∧
    (∀ i : ℕ, i < 8 →
      (generate_flight_path a b c d).getD (2 + 2 * i) [] = zig_point a b c d (i + 1) ∧
      (generate_flight_path a b c d).getD (3 + 2 * i) [] = zag_point a b c d (i + 1)) := by
  refine ⟨rfl, rfl, rfl, ?_⟩
  intro i hi
  interval_cases i <;> exact ⟨rfl, rfl⟩

/-- Witness for C3 at the bloom `(41.85, -83.10)` drifting to `(41.9, -83.0)`:
length, endpoints, and the first zig/zag pair. -/
theorem C3_witness :
    (generate_flight_path 41.85 (-83.10) 41.9 (-83.0)).length = 18 ∧
    (generate_flight_path 41.85 (-83.10) 41.9 (-83.0)).getD 2 [] =
      zig_point 41.85 (-83.10) 41.9 (-83.0) 1 ∧
    (generate_flight_path 41.85 (-83.10) 41.9 (-83.0)).getD 3 [] =
      zag_point 41.85 (-83.10) 41.9 (-83.0) 1 :=
  ⟨(C3_flight_path_structure 41.85 (-83.10) 41.9 (-83.0)).1,
    ((C3_flight_path_structure 41.85 (-83.10) 41.9 (-83.0)).2.2.2 0
      (by norm_num)).1,
    ((C3_flight_path_structure 41.85 (-83.10) 41.9 (-83.0)).2.2.2 0
      (by norm_num)).2⟩

/-- The drift-line bearing degenerates to `atan2 0 0 = 0` when the drift
point coincides with the bloom point. -/
lemma drift_bearing_self (la lo : ℝ) : drift_bearing la lo la lo = 0 := by
  unfold drift_bearing
  simp only [sub_self, zero_mul, atan2_zero_zero]

/-- Degenerate zig point: bearing 0, so the perpendicular offset is purely
longitudinal. -/
lemma zig_point_degenerate (la lo : ℝ) (i : ℕ) :
    zig_point la lo la lo i = [la, lo + 1.5 / 111.0 / Real.cos (radians la)] := by
  unfold zig_point
  rw [drift_bearing_self]
  simp only [sub_self, zero_div, zero_mul, add_zero, zero_add,
    Real.cos_pi_div_two, Real.sin_pi_div_two, mul_zero, mul_one]

/-- Degenerate zag point: mirror image of the degenerate zig point. -/
lemma zag_point_degenerate (la lo : ℝ) (i : ℕ) :
    zag_point la lo la lo i = [la, lo - 1.5 / 111.0 / Real.cos (radians la)] := by
  unfold zag_point
  rw [drift_bearing_self]
  simp only [sub_self, zero_div, zero_mul, add_zero, zero_add, sub_zero,
    Real.cos_pi_div_two, Real.sin_pi_div_two, mul_zero, mul_one]

/-- C10: when the drift point equals the bloom point, the planner's bearing
falls back deterministically to `0` (the `atan2(0, 0) = 0` convention), and
every waypoint of the returned path is the explicit, well-defined coordinate
pair shown. -/
theorem C10_degenerate_bearing_fallback (la lo : ℝ) :
    drift_bearing la lo la lo = 0 ∧
    generate_flight_path la lo la lo =
      [[PORT_STANLEY_LAT, PORT_STANLEY_LON], [la, lo],
        [la, lo + 1.5 / 111.0 / Real.cos (radians la)],
        [la, lo - 1.5 / 111.0 / Real.cos (radians la)],
        [la, lo + 1.5 / 111.0 / Real.cos (radians la)],
        [la, lo - 1.5 / 111.0 / Real.cos (radians la)],
        [la, lo + 1.5 / 111.0 / Real.cos (radians la)],
        [la, lo - 1.5 / 111.0 / Real.cos (radians la)],
        [la, lo + 1.5 / 111.0 / Real.cos (radians la)],
        [la, lo - 1.5 / 111.0 / Real.cos (radians la)],
        [la, lo + 1.5 / 111.0 / Real.cos (radians la)],
        [la, lo - 1.5 / 111.0 / Real.cos (radians la)],
        [la, lo + 1.5 / 111.0 / Real.cos (radians la)],
        [la, lo - 1.5 / 111.0 / Real.cos (radians la)],
        [la, lo + 1.5 / 111.0 / Real.cos (radians la)],
        [la, lo - 1.5 / 111.0 / Real.cos (radians la)],
        [la, lo + 1.5 / 111.0 / Real.cos (radians la)],
        [la, lo - 1.5 / 111.0 / Real.cos (radians la)]] := by
  refine ⟨drift_bearing_self la lo, ?_⟩
  rw [gfp_expand]
  simp only [zig_point_degenerate, zag_point_degenerate]

/-- C4: for every in-range coordinate, the analyze operation returns a
successful response whose `flight_path` is the empty list and whose
`ai_report` is the empty string; the planner and report generator are never
consulted. -/
theorem C4_analyze_placeholder_fields (lat lon : ℝ) (wind : Option WindData)
    (fn : String) (h1 : -90 ≤ lat) (h2 : lat ≤ 90) (h3 : -180 ≤ lon)
    (h4 : lon ≤ 180) :
    analyze_location lat lon wind fn =
      Except.ok
        { image_url := "/assets/" ++ fn
          risk_score := calculate_risk_score lat lon
          drift_vector := predict_drift lat lon wind
          ai_report := ""
          flight_path := [] } := by
  unfold analyze_location
  rw [if_pos ⟨h1, h2⟩, if_pos ⟨h3, h4⟩]

/-- Witness for C4 at the coordinate `(41.85, -83.10)` with an unavailable
wind lookup. -/
theorem C4_witness :
    analyze_location 41.85 (-83.10) none "bloom.png" =
      Except.ok
        { image_url := "/assets/" ++ "bloom.png"
          risk_score := calculate_risk_score 41.85 (-83.10)
          drift_vector := predict_drift 41.85 (-83.10) none
          ai_report := ""
          flight_path := [] } :=
  C4_analyze_placeholder_fields 41.85 (-83.10) none "bloom.png" (by norm_num)
    (by norm_num) (by norm_num) (by norm_num)

end

